import Mathlib

/-!
Verification development for the edreporter-parser extraction core.

Python strings are modelled as `List Char` (ASCII semantics for the
character classes the code relies on), Python floats as `ℚ`, and the
external PDF/OCR collaborators as explicit environment records.  Every
definition below is a direct transcription of the corresponding function
in `app/core/heuristics.py`, `app/core/pdf_io.py`, `app/core/ocr.py`,
`app/core/extraction.py` and `app/core/segment_model.py`.
-/

namespace EdReporter

abbrev Str := List Char

/-- ASCII whitespace accepted by Python `str.strip` / `\s` / `str.isspace`. -/
def pyWhitespace (c : Char) : Bool :=
  c = ' ' || c = '\t' || c = '\n' || c = '\r' || c = '\x0b' || c = '\x0c'

def isAsciiLetter (c : Char) : Bool :=
  ('a' ≤ c && c ≤ 'z') || ('A' ≤ c && c ≤ 'Z')

def isAsciiDigit (c : Char) : Bool :=
  '0' ≤ c && c ≤ '9'

/-- Python `str.isalnum` (ASCII fragment). -/
def isAsciiAlnum (c : Char) : Bool :=
  isAsciiLetter c || isAsciiDigit c

/-- Python `str.islower` on a single character (ASCII fragment). -/
def isAsciiLower (c : Char) : Bool :=
  'a' ≤ c && c ≤ 'z'

/-- A regex word character (`\w`), as used by the `\b` boundaries. -/
def isWordChar (c : Char) : Bool :=
  isAsciiAlnum c || c = '_'

/-- Python `str.lstrip()`. -/
def lstripWs (s : Str) : Str := s.dropWhile pyWhitespace

/-- Python `str.rstrip()`. -/
def rstripWs (s : Str) : Str := ((s.reverse).dropWhile pyWhitespace).reverse

/-- Python `str.strip()`. -/
def stripWs (s : Str) : Str := rstripWs (lstripWs s)

def splitWsAux : Str → Str → List Str
  | [], acc => if acc = [] then [] else [acc.reverse]
  | c :: rest, acc =>
    if pyWhitespace c then
      if acc = [] then splitWsAux rest []
      else acc.reverse :: splitWsAux rest []
    else splitWsAux rest (c :: acc)

/-- Python `str.split()` (split on whitespace runs, dropping empties). -/
def pySplitWords (s : Str) : List Str := splitWsAux s []

/-- Python `str.split('\n')` (keeps empty pieces). -/
def splitNl : Str → List Str
  | [] => [[]]
  | c :: rest =>
    if c = '\n' then [] :: splitNl rest
    else
      match splitNl rest with
      | [] => [[c]]
      | g :: gs => (c :: g) :: gs

/-- Python `sep.join(parts)`. -/
def joinSep (sep : Str) : List Str → Str
  | [] => []
  | [l] => l
  | l :: ls => l ++ sep ++ joinSep sep ls

def headIsWord : Str → Bool
  | [] => false
  | c :: _ => isWordChar c

def countIsolatedAux : Bool → Str → Nat
  | _, [] => 0
  | prevW, c :: rest =>
    (if isAsciiLetter c && !prevW && !headIsWord rest then 1 else 0) +
      countIsolatedAux (isWordChar c) rest

/-- `len(re.findall(r'\b[a-zA-Z]\b', s))`: number of isolated single
ASCII letters (letter whose neighbours are non-word characters). -/
def countIsolated (s : Str) : Nat := countIsolatedAux false s

/-- `heuristics.should_fallback_to_ocr` (lines 10-51). -/
def should_fallback_to_ocr (t : Str) : Bool :=
  let text := stripWs t
  if text.length < 40 then true
  else
    let alphanum_count := (text.filter isAsciiAlnum).length
    let total_count := text.length
    if total_count = 0 then true
    else
      let alphanum_ratio : ℚ := (alphanum_count : ℚ) / (total_count : ℚ)
      if alphanum_ratio < 65/100 then true
      else
        let isolated_letters := countIsolated text
        let words := (pySplitWords text).length
        if 0 < words ∧ (isolated_letters : ℚ) / (words : ℚ) > 3/10 then true
        else false

/-- `heuristics.calculate_quality_score` (lines 120-167). -/
def calculate_quality_score (t : Str) : ℚ :=
  if (stripWs t).length = 0 then 0
  else
    let text := stripWs t
    let score0 : ℚ := 1
    let score1 :=
      if text.length < 40 then score0 * (3/10)
      else if text.length < 100 then score0 * (6/10)
      else score0
    let alphanum_count := (text.filter (fun c => isAsciiAlnum c || pyWhitespace c)).length
    let total_count := text.length
    let alphanum_ratio : ℚ := (alphanum_count : ℚ) / (total_count : ℚ)
    let score2 :=
      if alphanum_ratio < 1/2 then score1 * (3/10)
      else if alphanum_ratio < 7/10 then score1 * (6/10)
      else if alphanum_ratio < 85/100 then score1 * (9/10)
      else score1
    let isolated_letters := countIsolated text
    let words := (pySplitWords text).length
    let score3 :=
      if 0 < words then
        if (isolated_letters : ℚ) / (words : ℚ) > 3/10 then score2 * (4/10)
        else if (isolated_letters : ℚ) / (words : ℚ) > 15/100 then score2 * (7/10)
        else score2
      else score2
    min (max score3 0) 1

/-- The sentence-ending characters `'.!?:"'` of `cleanup_text`. -/
def sentencePunct (c : Char) : Bool :=
  c = '.' || c = '!' || c = '?' || c = ':' || c = '"'

def endsWithPunct (s : Str) : Bool :=
  match s.getLast? with
  | some c => sentencePunct c
  | none => false

def startsLower : Str → Bool
  | [] => false
  | c :: _ => isAsciiLower c

/-- Scanner state for the dehyphenation regex: the characters consumed so
far towards a potential match (a letter, then a hyphen, then a whitespace
run). -/
inductive DehyphState where
  | clean
  | haveLetter (a : Char)
  | haveHyphen (a : Char)
  | haveWs (a : Char) (wsRev : Str)

/-- Scanner for `re.sub(r'([a-zA-Z])-\s*\n\s*([a-zA-Z])', r'\1\2', text)`,
one input character per step.  A match — letter, hyphen, a whitespace run
containing a newline, letter — is replaced by the two letters, and scanning
resumes after the match, exactly as `re.sub` does for non-overlapping
leftmost matches; a failed partial match is flushed unchanged and the
current character may begin a new match. -/
def dehyphGo : Str → DehyphState → Str
  | [], .clean => []
  | [], .haveLetter a => [a]
  | [], .haveHyphen a => [a, '-']
  | [], .haveWs a wsRev => a :: '-' :: wsRev.reverse
  | c :: rest, .clean =>
    if isAsciiLetter c then dehyphGo rest (.haveLetter c)
    else c :: dehyphGo rest .clean
  | c :: rest, .haveLetter a =>
    if c = '-' then dehyphGo rest (.haveHyphen a)
    else if isAsciiLetter c then a :: dehyphGo rest (.haveLetter c)
    else a :: c :: dehyphGo rest .clean
  | c :: rest, .haveHyphen a =>
    if pyWhitespace c then dehyphGo rest (.haveWs a [c])
    else if isAsciiLetter c then a :: '-' :: dehyphGo rest (.haveLetter c)
    else a :: '-' :: c :: dehyphGo rest .clean
  | c :: rest, .haveWs a wsRev =>
    if pyWhitespace c then dehyphGo rest (.haveWs a (c :: wsRev))
    else if isAsciiLetter c && wsRev.contains '\n' then
      a :: c :: dehyphGo rest .clean
    else if isAsciiLetter c then
      (a :: '-' :: wsRev.reverse) ++ dehyphGo rest (.haveLetter c)
    else (a :: '-' :: wsRev.reverse) ++ (c :: dehyphGo rest .clean)

/-- Hyphenation fix of `cleanup_text` (line 71). -/
def dehyph (s : Str) : Str := dehyphGo s .clean

/-- The line-joining `while` loop of `cleanup_text` (lines 76-104).
Note that in the merge branch the Python code sets
`line = line + ' ' + next_line; i += 2` but never appends the merged
line to `cleaned_lines`, so the merged content is dropped. -/
def joinLinesGo : List Str → List Str
  | [] => []
  | [l] => [rstripWs l]
  | l1 :: l2 :: rest =>
    let line := rstripWs l1
    let nextLine := lstripWs l2
    if line ≠ [] && nextLine ≠ [] && !endsWithPunct line && startsLower nextLine then
      joinLinesGo rest
    else line :: joinLinesGo (l2 :: rest)

def nlRun (k : Nat) : Str :=
  if 3 ≤ k then ['\n', '\n'] else List.replicate k '\n'

def collapseNlGo : Str → Nat → Str
  | [], k => nlRun k
  | c :: rest, k =>
    if c = '\n' then collapseNlGo rest (k + 1)
    else nlRun k ++ (c :: collapseNlGo rest 0)

/-- `re.sub(r'\n{3,}', '\n\n', text)` (line 108). -/
def collapseNl (s : Str) : Str := collapseNlGo s 0

/-- `heuristics.cleanup_text` (lines 54-117). -/
def cleanup_text (t : Str) : Str :=
  let t1 := dehyph t
  let t2 := joinSep ['\n'] (joinLinesGo (splitNl t1))
  let t3 := collapseNl t2
  let t4 := joinSep ['\n'] ((splitNl t3).map rstripWs)
  stripWs t4

/-! ## Coordinate mapper (`pdf_io.bbox_pixels_to_pdf`, lines 104-136) -/

/-- `segment_model.BBox`: a pixel-space bounding box (origin top-left). -/
structure BBoxQ where
  x : ℚ
  y : ℚ
  w : ℚ
  h : ℚ
deriving DecidableEq

/-- A `fitz.Rect`-style rectangle in PDF point space. -/
structure RectQ where
  x0 : ℚ
  y0 : ℚ
  x1 : ℚ
  y1 : ℚ
deriving DecidableEq

/-- `pdf_io.bbox_pixels_to_pdf`: pixel space (top-left origin) to PDF point
space (bottom-left origin).  `page_width_points` is accepted but unused,
as in the source. -/
def bbox_pixels_to_pdf (bbox_pixels : BBoxQ)
    (page_width_points page_height_points : ℚ) (dpi : ℚ) : RectQ :=
  let scale := dpi / 72
  let page_height_pixels := page_height_points * scale
  { x0 := bbox_pixels.x / scale
  , y0 := (page_height_pixels - bbox_pixels.y - bbox_pixels.h) / scale
  , x1 := (bbox_pixels.x + bbox_pixels.w) / scale
  , y1 := (page_height_pixels - bbox_pixels.y) / scale }

/-! ## Stable sorting by lexicographic keys

Python `list.sort(key=...)` is a stable sort; a stable sort is uniquely
determined by the key order, so `List.insertionSort` with the non-strict
key comparison is an exact model. -/

abbrev SortKey := ℤ × ℤ × ℚ

/-- Non-strict lexicographic comparison of sort keys. -/
def lexLe (p q : SortKey) : Prop :=
  p.1 < q.1 ∨ (p.1 = q.1 ∧ (p.2.1 < q.2.1 ∨ (p.2.1 = q.2.1 ∧ p.2.2 ≤ q.2.2)))

instance : DecidableRel lexLe := fun p q => by
  unfold lexLe; infer_instance

/-- Comparison of list elements through a key function, as in
`list.sort(key=...)`. -/
def keyedLe {α : Type} (f : α → SortKey) (a b : α) : Prop :=
  lexLe (f a) (f b)

instance {α : Type} (f : α → SortKey) : DecidableRel (keyedLe f) := fun a b => by
  unfold keyedLe; infer_instance

instance {α : Type} (f : α → SortKey) : IsTotal α (keyedLe f) :=
  ⟨fun a b => by
    unfold keyedLe lexLe
    rcases lt_trichotomy (f a).1 (f b).1 with h | h | h
    · exact Or.inl (Or.inl h)
    · rcases lt_trichotomy (f a).2.1 (f b).2.1 with h2 | h2 | h2
      · exact Or.inl (Or.inr ⟨h, Or.inl h2⟩)
      · rcases le_total (f a).2.2 (f b).2.2 with h3 | h3
        · exact Or.inl (Or.inr ⟨h, Or.inr ⟨h2, h3⟩⟩)
        · exact Or.inr (Or.inr ⟨h.symm, Or.inr ⟨h2.symm, h3⟩⟩)
      · exact Or.inr (Or.inr ⟨h.symm, Or.inl h2⟩)
    · exact Or.inr (Or.inl h)⟩

instance {α : Type} (f : α → SortKey) : IsTrans α (keyedLe f) :=
  ⟨fun a b c h1 h2 => by
    unfold keyedLe lexLe at *
    rcases h1 with h1 | ⟨e1, h1⟩ <;> rcases h2 with h2 | ⟨e2, h2⟩
    · exact Or.inl (lt_trans h1 h2)
    · exact Or.inl (e2 ▸ h1)
    · exact Or.inl (e1 ▸ h2)
    · refine Or.inr ⟨e1.trans e2, ?_⟩
      rcases h1 with h1 | ⟨g1, h1⟩ <;> rcases h2 with h2 | ⟨g2, h2⟩
      · exact Or.inl (lt_trans h1 h2)
      · exact Or.inl (g2 ▸ h1)
      · exact Or.inl (g1 ▸ h2)
      · exact Or.inr ⟨g1.trans g2, le_trans h1 h2⟩⟩

/-! ## Text-layer reading order (`pdf_io.extract_text_in_bbox`, lines 139-201) -/

/-- A raw `page.get_text("blocks")` tuple: `(x0, y0, x1, y1, text,
block_no, block_type)`; only the fields the function reads are kept. -/
structure RawBlock where
  x0 : ℚ
  y0 : ℚ
  text : Str
  block_type : ℤ
deriving DecidableEq

/-- The dict `{"text": ..., "y": ..., "x": ...}` built per text block. -/
structure TextBlock where
  text : Str
  y : ℚ
  x : ℚ
deriving DecidableEq

/-- Python `round` (banker's rounding, half to even). -/
def pyRound (q : ℚ) : ℤ :=
  if q - ⌊q⌋ < 1/2 then ⌊q⌋
  else if 1/2 < q - ⌊q⌋ then ⌊q⌋ + 1
  else if 2 ∣ ⌊q⌋ then ⌊q⌋ else ⌊q⌋ + 1

/-- The sort key `(round(b["y"] / 5) * 5, b["x"])` of line 193 (middle
component unused). -/
def blockKey (b : TextBlock) : SortKey :=
  (pyRound (b.y / 5) * 5, 0, b.x)

abbrev blockLe := keyedLe blockKey

/-- The conversion of raw blocks to `text_blocks` (lines 181-189): keep
genuine text blocks (`block_type = 0`), strip their text, record top-left
position. -/
def textBlocksOf (blocks : List RawBlock) : List TextBlock :=
  (blocks.filter (fun b => b.block_type = 0)).map
    (fun b => { text := stripWs b.text, y := b.y0, x := b.x0 })

/-- The sorted reading order of line 193. -/
def orderedBlocks (blocks : List RawBlock) : List TextBlock :=
  List.insertionSort blockLe (textBlocksOf blocks)

/-- `pdf_io.extract_text_in_bbox`, from the point where the PDF library
has returned the raw blocks intersecting the clip rectangle: sort into
reading order and join the non-empty texts with single newlines
(line 196). -/
def extract_text_in_bbox (blocks : List RawBlock) : Str :=
  joinSep ['\n'] (((orderedBlocks blocks).filter (fun b => b.text ≠ [])).map
    (fun b => b.text))

/-! ## OCR adapter and orchestrator (`ocr.py`, `extraction.py`) -/

inductive Method where
  | pdf_text
  | ocr
deriving DecidableEq

/-- The only error the orchestrator lets escape:
`ocr.TesseractNotFoundError`. -/
inductive ExtractErr where
  | engineUnavailable
deriving DecidableEq

/-- Environment for one region's extraction: the outcomes of the external
PDF and OCR collaborators.  `textLayerResult = none` models
`extract_text_in_bbox` raising; `cropResult = none` models
`crop_page_region` raising; `recogResult = none` models
`pytesseract.image_to_string` raising. -/
structure OcrEnv where
  tesseractAvailable : Bool
  cropResult : Option Unit
  recogResult : Option Str
  textLayerResult : Option Str
deriving DecidableEq

/-- `ocr.ocr_image_crop` (lines 30-74): raises `TesseractNotFoundError`
when the engine is unavailable; any recognition error is swallowed and
reported as empty text. -/
def ocr_image_crop (env : OcrEnv) : Except ExtractErr Str :=
  if env.tesseractAvailable = false then .error .engineUnavailable
  else
    match env.recogResult with
    | some t => .ok t
    | none => .ok []

/-- `extraction._ocr_region` (lines 130-163): crop, then OCR;
`TesseractNotFoundError` is re-raised, every other exception is caught
and yields empty text.  A crop failure is caught by the generic handler
before `ocr_image_crop` is ever called. -/
def ocrRegionStep (env : OcrEnv) : Except ExtractErr Str :=
  match env.cropResult with
  | none => .ok []
  | some _ => ocr_image_crop env

/-- `extraction.RegionExtraction`. -/
structure RegionExtraction where
  region_id : Str
  page_index : ℤ
  method : Method
  quality_score : ℚ
  text_length : Nat
  ocr_confidence : ℚ
deriving DecidableEq

/-- `extraction.extract_region_text` (lines 51-127).  In the low-quality
fallback path a `TesseractNotFoundError` from `_ocr_region` is first
caught by the surrounding `except Exception` handler, whose own
`_ocr_region` call raises it again and lets it propagate; with a
deterministic environment this is a plain propagation. -/
def extract_region_text (env : OcrEnv) (region_id : Str) (page_index : ℤ)
    (prefer_pdf_text : Bool) : Except ExtractErr (Str × RegionExtraction) :=
  let finish := fun (text : Str) (method : Method) (conf : ℚ) =>
    (text, { region_id := region_id
           , page_index := page_index
           , method := method
           , quality_score := calculate_quality_score text
           , text_length := text.length
           , ocr_confidence := conf : RegionExtraction })
  if prefer_pdf_text then
    match env.textLayerResult with
    | some t =>
      if should_fallback_to_ocr t then
        match ocrRegionStep env with
        | .ok o => .ok (finish o .ocr 85)
        | .error e => .error e
      else .ok (finish t .pdf_text 0)
    | none =>
      match ocrRegionStep env with
      | .ok o => .ok (finish o .ocr 0)
      | .error e => .error e
  else
    match ocrRegionStep env with
    | .ok o => .ok (finish o .ocr 0)
    | .error e => .error e

/-! ## Annotation data model (`segment_model.py`) -/

/-- `segment_model.Region` (page-independent attributes). -/
structure RegionM where
  region_id : Str
  article_id : Str
  order : ℤ
  bbox : BBoxQ
  type : Str
  notes : Str
deriving DecidableEq

/-- `segment_model.Article`. -/
structure ArticleM where
  title : Str
  subtitle : Str
  author : Str
  tags : List Str
  color : Str
  reading_hint : Str
deriving DecidableEq

/-- The pydantic defaults of `Article` (all fields defaulted except
`color`, which `add_article` overrides). -/
def defaultArticle : ArticleM :=
  { title := [], subtitle := [], author := [], tags := []
  , color := "#3498db".data, reading_hint := "top-to-bottom".data }

/-- `segment_model.Settings`. -/
structure SettingsM where
  dpi : ℤ
  ocr_lang : Str
  prefer_pdf_text_layer : Bool
deriving DecidableEq

/-- `segment_model.AnnotationDoc`.  Python dicts preserve insertion
order; they are modelled as association lists. -/
structure AnnotationDocM where
  schema_version : Str
  source_pdf : Str
  created_at : Str
  updated_at : Str
  pages : List (Str × List RegionM)
  articles : List (Str × ArticleM)
  settings : SettingsM
deriving DecidableEq

/-- Python `key in dict`. -/
def containsKey {α : Type} (l : List (Str × α)) (k : Str) : Bool :=
  l.any (fun p => p.1 = k)

/-- Decimal digit parsing, the behaviour of Python `int(...)` on the
canonical `str(page_index)` keys. -/
def digitsToNat (s : Str) : Nat :=
  s.foldl (fun acc c => acc * 10 + (c.toNat - '0'.toNat)) 0

def pyIntOfStr (s : Str) : ℤ := (digitsToNat s : ℤ)

/-- The color cycle of `add_article` (lines 171-174). -/
def articleColors : List Str :=
  [ "#3498db".data, "#e74c3c".data, "#2ecc71".data, "#f39c12".data
  , "#9b59b6".data, "#1abc9c".data, "#e67e22".data, "#34495e".data
  , "#16a085".data, "#c0392b".data ]

/-- `AnnotationDoc.add_article` (lines 151-180).  `now` stands for
`datetime.utcnow().isoformat()`. -/
def add_article (doc : AnnotationDocM) (article_id : Option Str) (now : Str) :
    AnnotationDocM × Str :=
  let aid :=
    match article_id with
    | some a => a
    | none =>
      let existing_nums := doc.articles.filterMap (fun p =>
        match p.1 with
        | 'A' :: rest =>
          if rest ≠ [] && rest.all isAsciiDigit then some (digitsToNat rest)
          else none
        | _ => none)
      let next_num := (existing_nums.foldl max 0) + 1
      'A' :: (Nat.repr next_num).data
  if containsKey doc.articles aid then (doc, aid)
  else
    let color_idx := doc.articles.length % articleColors.length
    let newArticle := { defaultArticle with color := articleColors.getD color_idx [] }
    ({ doc with articles := doc.articles ++ [(aid, newArticle)], updated_at := now },
     aid)

/-- The flat `(page_idx, region)` collection loop of
`get_regions_for_article` (lines 279-285), in page-dict iteration order. -/
def collectRegions (doc : AnnotationDocM) (article_id : Str) :
    List (ℤ × RegionM) :=
  doc.pages.flatMap (fun pk =>
    (pk.2.filter (fun r => r.article_id = article_id)).map
      (fun r => (pyIntOfStr pk.1, r)))

/-- The sort key `(x[1].order, x[0], x[1].bbox.y)` of line 288. -/
def regionKey (pr : ℤ × RegionM) : SortKey :=
  (pr.2.order, pr.1, pr.2.bbox.y)

abbrev regionLe := keyedLe regionKey

/-- `AnnotationDoc.get_regions_for_article` (lines 270-290). -/
def get_regions_for_article (doc : AnnotationDocM) (article_id : Str) :
    List (ℤ × RegionM) :=
  List.insertionSort regionLe (collectRegions doc article_id)

/-! ## Article text assembly (`extraction.build_article_text`, lines 166-252) -/

/-- `extraction.ExtractedText`. -/
structure ExtractedTextM where
  article_id : Str
  text : Str
  regions_metadata : List RegionExtraction
deriving DecidableEq

/-- The per-region extraction loop (lines 219-231): any propagated
exception aborts the whole batch, otherwise texts and metadata are
collected in order. -/
def extractAll (envF : RegionM → OcrEnv) (prefer_pdf_text : Bool) :
    List (ℤ × RegionM) → Except ExtractErr (List Str × List RegionExtraction)
  | [] => .ok ([], [])
  | (pg, r) :: rest =>
    match extract_region_text (envF r) r.region_id pg prefer_pdf_text with
    | .error e => .error e
    | .ok (t, md) =>
      match extractAll envF prefer_pdf_text rest with
      | .error e => .error e
      | .ok (ts, mds) => .ok (t :: ts, md :: mds)

/-- The body of `build_article_text`'s per-article loop (lines 196-248):
fetch the article's regions in reading order, extract each, join the
parts with a blank line, optionally clean up. -/
def build_article_text_one (doc : AnnotationDocM) (envF : RegionM → OcrEnv)
    (article_id : Str) (apply_cleanup : Bool) : Except ExtractErr ExtractedTextM :=
  match get_regions_for_article doc article_id with
  | [] => .ok { article_id := article_id, text := [], regions_metadata := [] }
  | regions =>
    match extractAll envF doc.settings.prefer_pdf_text_layer regions with
    | .error e => .error e
    | .ok (parts, mds) =>
      let full_text := joinSep ("\n\n".data) parts
      let full_text := if apply_cleanup then cleanup_text full_text else full_text
      .ok { article_id := article_id, text := full_text, regions_metadata := mds }

/-- `extraction.build_article_text`: the loop over all articles, keyed in
article-dict order. -/
def build_article_text (doc : AnnotationDocM) (envF : RegionM → OcrEnv)
    (apply_cleanup : Bool) :
    Except ExtractErr (List (Str × ExtractedTextM)) :=
  go doc.articles
where
  go : List (Str × ArticleM) → Except ExtractErr (List (Str × ExtractedTextM))
    | [] => .ok []
    | (aid, _) :: rest =>
      match build_article_text_one doc envF aid apply_cleanup with
      | .error e => .error e
      | .ok one =>
        match go rest with
        | .error e => .error e
        | .ok others => .ok ((aid, one) :: others)

/-! ## Concrete example inputs used by the reading-order claims -/

/-- Fragment at content-space y = 10, x = 80. -/
def exBlockA : RawBlock := { x0 := 80, y0 := 10, text := "F80".data, block_type := 0 }

/-- Fragment at content-space y = 10.2, x = 10. -/
def exBlockB : RawBlock := { x0 := 10, y0 := 51/5, text := "F10".data, block_type := 0 }

/-- Fragment at content-space y = 50, x = 5. -/
def exBlockC : RawBlock := { x0 := 5, y0 := 50, text := "F5".data, block_type := 0 }

def exTbA : TextBlock := { text := stripWs ("F80".data), y := 10, x := 80 }

def exTbB : TextBlock := { text := stripWs ("F10".data), y := 51/5, x := 10 }

def exTbC : TextBlock := { text := stripWs ("F5".data), y := 50, x := 5 }

/-- A region with reading-order rank 2. -/
def exRegion1 : RegionM :=
  { region_id := "r1".data, article_id := "A1".data, order := 2
  , bbox := ⟨0, 100, 50, 20⟩, type := "body".data, notes := [] }

/-- A region with reading-order rank 1 on the same page. -/
def exRegion2 : RegionM :=
  { region_id := "r2".data, article_id := "A1".data, order := 1
  , bbox := ⟨0, 300, 50, 20⟩, type := "body".data, notes := [] }

def exDoc : AnnotationDocM :=
  { schema_version := "1.0".data, source_pdf := "ed.pdf".data
  , created_at := "t0".data, updated_at := "t0".data
  , pages := [("0".data, [exRegion1, exRegion2])]
  , articles := [("A1".data, defaultArticle)]
  , settings := { dpi := 200, ocr_lang := "eng".data, prefer_pdf_text_layer := false } }

/-- Per-region external outcomes: OCR reads `"alpha"` inside region `r2`
and `"bravo"` inside any other region. -/
def exEnvF : RegionM → OcrEnv := fun r =>
  if r.region_id = "r2".data then ⟨true, some (), some ("alpha".data), none⟩
  else ⟨true, some (), some ("bravo".data), none⟩

/-! ## Helper lemmas -/

theorem stripWs_length_le (s : Str) : (stripWs s).length ≤ s.length := by
  unfold stripWs rstripWs lstripWs
  calc (((s.dropWhile pyWhitespace).reverse.dropWhile pyWhitespace).reverse).length
      = ((s.dropWhile pyWhitespace).reverse.dropWhile pyWhitespace).length := by
        rw [List.length_reverse]
    _ ≤ (s.dropWhile pyWhitespace).reverse.length :=
        (List.dropWhile_suffix pyWhitespace).sublist.length_le
    _ = (s.dropWhile pyWhitespace).length := by rw [List.length_reverse]
    _ ≤ s.length := (List.dropWhile_suffix pyWhitespace).sublist.length_le

theorem ocrRegionStep_error {env : OcrEnv} {e : ExtractErr}
    (h : ocrRegionStep env = .error e) :
    e = .engineUnavailable ∧ env.tesseractAvailable = false := by
  unfold ocrRegionStep ocr_image_crop at h
  cases hc : env.cropResult with
  | none => rw [hc] at h; exact absurd h (by simp)
  | some u =>
    rw [hc] at h
    by_cases ha : env.tesseractAvailable = false
    · rw [if_pos ha] at h
      cases h
      exact ⟨rfl, ha⟩
    · rw [if_neg ha] at h
      cases hr : env.recogResult <;> rw [hr] at h <;> exact absurd h (by simp)

theorem ocrRegionStep_ok_of_available {env : OcrEnv}
    (h : env.tesseractAvailable = true) : ∃ s, ocrRegionStep env = .ok s := by
  unfold ocrRegionStep ocr_image_crop
  cases env.cropResult with
  | none => exact ⟨[], rfl⟩
  | some u =>
    rw [h]
    cases env.recogResult with
    | none => exact ⟨[], by simp⟩
    | some t => exact ⟨t, by simp⟩

/-! ## Claims -/

/-- C1: the spec requires the Text Cleanup Engine to be idempotent, but the
code is not: on `"A\nB\nc\nd"` one application yields `"A\nd"` (the merged
line `"B c"` is silently dropped by the join loop, which never appends it),
and a second application merges and then drops `"A d"` as well, yielding
`""`.  So `cleanup_text (cleanup_text t) ≠ cleanup_text t` at this input. -/
theorem c1_cleanup_not_idempotent :
    cleanup_text ("A\nB\nc\nd".data) = ("A\nd".data) ∧
    cleanup_text (cleanup_text ("A\nB\nc\nd".data)) = [] ∧
    cleanup_text (cleanup_text ("A\nB\nc\nd".data)) ≠ cleanup_text ("A\nB\nc\nd".data) := by
  refine ⟨by decide, by decide, by decide⟩

/-- C2: the pixel-to-content mapping computes exactly the spec's formulas
with `scale = dpi / 72` and `pageHeightPixels = H * scale`, and a zero-area
input bounding box yields a zero-area rectangle. -/
theorem c2_bbox_pixels_to_pdf_formulas (bbox : BBoxQ) (W H dpi : ℚ) :
    (bbox_pixels_to_pdf bbox W H dpi).x0 = bbox.x / (dpi / 72) ∧
    (bbox_pixels_to_pdf bbox W H dpi).x1 = (bbox.x + bbox.w) / (dpi / 72) ∧
    (bbox_pixels_to_pdf bbox W H dpi).y0 =
      (H * (dpi / 72) - bbox.y - bbox.h) / (dpi / 72) ∧
    (bbox_pixels_to_pdf bbox W H dpi).y1 = (H * (dpi / 72) - bbox.y) / (dpi / 72) ∧
    (bbox.w * bbox.h = 0 →
      ((bbox_pixels_to_pdf bbox W H dpi).x1 - (bbox_pixels_to_pdf bbox W H dpi).x0) *
        ((bbox_pixels_to_pdf bbox W H dpi).y1 - (bbox_pixels_to_pdf bbox W H dpi).y0)
        = 0) := by
  refine ⟨rfl, rfl, rfl, rfl, fun h => ?_⟩
  have e : ((bbox_pixels_to_pdf bbox W H dpi).x1 - (bbox_pixels_to_pdf bbox W H dpi).x0) *
      ((bbox_pixels_to_pdf bbox W H dpi).y1 - (bbox_pixels_to_pdf bbox W H dpi).y0)
      = (bbox.w * bbox.h) / ((dpi / 72) * (dpi / 72)) := by
    simp only [bbox_pixels_to_pdf]
    ring
  rw [e, h, zero_div]

theorem c2_witness :
    (bbox_pixels_to_pdf ⟨5, 7, 0, 3⟩ 612 792 200).x0 = 5 / (200 / 72) ∧
    ((bbox_pixels_to_pdf ⟨5, 7, 0, 3⟩ 612 792 200).x1 -
        (bbox_pixels_to_pdf ⟨5, 7, 0, 3⟩ 612 792 200).x0) *
      ((bbox_pixels_to_pdf ⟨5, 7, 0, 3⟩ 612 792 200).y1 -
        (bbox_pixels_to_pdf ⟨5, 7, 0, 3⟩ 612 792 200).y0) = 0 :=
  ⟨(c2_bbox_pixels_to_pdf_formulas ⟨5, 7, 0, 3⟩ 612 792 200).1,
   (c2_bbox_pixels_to_pdf_formulas ⟨5, 7, 0, 3⟩ 612 792 200).2.2.2.2 (by norm_num)⟩

/-- C5: any text shorter than 40 characters is classified low quality, and
its quality score is at most 0.3. -/
theorem c5_short_text_low_quality (t : Str) (h : t.length < 40) :
    should_fallback_to_ocr t = true ∧ calculate_quality_score t ≤ 3/10 := by
  have hs : (stripWs t).length < 40 := lt_of_le_of_lt (stripWs_length_le t) h
  constructor
  · simp only [should_fallback_to_ocr]
    rw [if_pos hs]
  · by_cases h0 : (stripWs t).length = 0
    · simp only [calculate_quality_score, if_pos h0]
      norm_num
    · simp only [calculate_quality_score, if_neg h0, if_pos hs]
      split_ifs <;>
        · refine le_trans (min_le_left _ _) ?_
          rw [max_eq_left (by norm_num)]
          norm_num

theorem c5_witness :
    should_fallback_to_ocr ("hi".data) = true ∧
    calculate_quality_score ("hi".data) ≤ 3/10 :=
  c5_short_text_low_quality ("hi".data) (by decide)

/-- C3: with `prefer_pdf_text = true`, when the text layer succeeds but
`should_fallback_to_ocr` classifies the text as low quality, the
orchestrator falls back to OCR and the returned metadata reports
`method = ocr`, not `pdf_text` (the OCR engine being available). -/
theorem c3_low_quality_falls_back_to_ocr (env : OcrEnv) (rid : Str) (pg : ℤ)
    (t : Str) (h1 : env.textLayerResult = some t)
    (h2 : should_fallback_to_ocr t = true)
    (h3 : env.tesseractAvailable = true) :
    (extract_region_text env rid pg true).map (fun p => p.2.method) =
      .ok Method.ocr := by
  obtain ⟨s, hs⟩ := ocrRegionStep_ok_of_available h3
  simp [extract_region_text, h1, h2, hs, Except.map]

theorem c3_witness :
    (extract_region_text
        ⟨true, some (), some ("ocr result".data), some ("a b c d e f".data)⟩
        ("r1".data) 0 true).map (fun p => p.2.method) = .ok Method.ocr :=
  c3_low_quality_falls_back_to_ocr _ ("r1".data) 0 ("a b c d e f".data)
    rfl (by decide) rfl

/-- C4 counterexample: with the OCR engine unavailable AND the page-crop
rendering itself raising, a `prefer_pdf_text = false` invocation does NOT
propagate `EngineUnavailable`: the generic handler in `_ocr_region`
catches the crop failure and returns empty text before `ocr_image_crop`
(and hence the availability check) is ever reached. -/
theorem c4_counterexample :
    extract_region_text ⟨false, none, none, none⟩ ("r1".data) 0 false =
      .ok ([], { region_id := "r1".data, page_index := 0, method := .ocr
               , quality_score := 0, text_length := 0, ocr_confidence := 0 }) ∧
    extract_region_text ⟨false, none, none, none⟩ ("r1".data) 0 false ≠
      .error .engineUnavailable :=
  ⟨rfl, fun h => Except.noConfusion h⟩

/-- C4 (amended): when the OCR engine is unavailable and the page-crop
render succeeds, any `prefer_pdf_text = false` invocation propagates the
distinct `EngineUnavailable` error; conversely the only error the
orchestrator ever propagates is `EngineUnavailable` (and only when the
engine is indeed unavailable), and a non-engine OCR failure (crop or
recognition) yields empty region text instead of an error. -/
theorem c4_engine_unavailable_policy :
    (∀ (env : OcrEnv) (rid : Str) (pg : ℤ),
      env.tesseractAvailable = false → env.cropResult = some () →
      extract_region_text env rid pg false = .error .engineUnavailable) ∧
    (∀ (env : OcrEnv) (rid : Str) (pg : ℤ) (prefer : Bool) (e : ExtractErr),
      extract_region_text env rid pg prefer = .error e →
      e = .engineUnavailable ∧ env.tesseractAvailable = false) ∧
    (∀ (env : OcrEnv) (rid : Str) (pg : ℤ),
      (env.cropResult = none ∨
        (env.tesseractAvailable = true ∧ env.recogResult = none)) →
      (extract_region_text env rid pg false).map (fun p => p.1) = .ok []) := by
  refine ⟨?_, ?_, ?_⟩
  · intro env rid pg h1 h2
    have hstep : ocrRegionStep env = .error .engineUnavailable := by
      unfold ocrRegionStep ocr_image_crop
      rw [h2, h1]
      simp
    simp [extract_region_text, hstep]
  · intro env rid pg prefer e h
    cases prefer with
    | false =>
      cases hstep : ocrRegionStep env with
      | ok o => simp [extract_region_text, hstep] at h
      | error e2 =>
        have hred : extract_region_text env rid pg false = Except.error e2 := by
          simp [extract_region_text, hstep]
        rw [hred] at h
        injection h with h2
        subst h2
        exact ocrRegionStep_error hstep
    | true =>
      cases hT : env.textLayerResult with
      | none =>
        cases hstep : ocrRegionStep env with
        | ok o => simp [extract_region_text, hT, hstep] at h
        | error e2 =>
          have hred : extract_region_text env rid pg true = Except.error e2 := by
            simp [extract_region_text, hT, hstep]
          rw [hred] at h
          injection h with h2
          subst h2
          exact ocrRegionStep_error hstep
      | some t =>
        cases hsb : should_fallback_to_ocr t with
        | false => simp [extract_region_text, hT, hsb] at h
        | true =>
          cases hstep : ocrRegionStep env with
          | ok o => simp [extract_region_text, hT, hsb, hstep] at h
          | error e2 =>
            have hred : extract_region_text env rid pg true = Except.error e2 := by
              simp [extract_region_text, hT, hsb, hstep]
            rw [hred] at h
            injection h with h2
            subst h2
            exact ocrRegionStep_error hstep
  · intro env rid pg h
    have hstep : ocrRegionStep env = .ok [] := by
      rcases h with hc | ⟨ha, hr⟩
      · unfold ocrRegionStep
        rw [hc]
      · unfold ocrRegionStep ocr_image_crop
        cases hc : env.cropResult with
        | none => rfl
        | some u =>
          rw [ha, hr]
          simp
    simp [extract_region_text, hstep, Except.map]

theorem c4_witness :
    extract_region_text ⟨false, some (), none, none⟩ ("r1".data) 0 false =
      .error .engineUnavailable ∧
    (extract_region_text ⟨true, some (), none, none⟩ ("r2".data) 0 false).map
      (fun p => p.1) = .ok [] :=
  ⟨c4_engine_unavailable_policy.1 _ ("r1".data) 0 rfl rfl,
   c4_engine_unavailable_policy.2.2 _ ("r2".data) 0 (Or.inr ⟨rfl, rfl⟩)⟩

/-- C8: a region whose text layer yields nothing usable and whose OCR
fails for a non-engine reason still produces a `RegionExtraction` record,
with empty text, `text_length = 0` and quality score exactly 0; and the
quality score of any empty or whitespace-only text is exactly 0. -/
theorem c8_total_failure_still_recorded (env : OcrEnv) (rid : Str) (pg : ℤ)
    (tl : Str) (h1 : env.textLayerResult = some tl)
    (h2 : should_fallback_to_ocr tl = true)
    (h3 : env.cropResult = none ∨
      (env.tesseractAvailable = true ∧ env.recogResult = none)) :
    extract_region_text env rid pg true =
      .ok ([], { region_id := rid, page_index := pg, method := .ocr
               , quality_score := 0, text_length := 0, ocr_confidence := 85 }) ∧
    (∀ u : Str, stripWs u = [] → calculate_quality_score u = 0) := by
  constructor
  · have hstep : ocrRegionStep env = .ok [] := by
      rcases h3 with hc | ⟨ha, hr⟩
      · unfold ocrRegionStep
        rw [hc]
      · unfold ocrRegionStep ocr_image_crop
        cases hc : env.cropResult with
        | none => rfl
        | some u =>
          rw [ha, hr]
          simp
    simp [extract_region_text, h1, h2, hstep]
    rfl
  · intro u hu
    simp [calculate_quality_score, hu]

theorem c8_witness :
    extract_region_text ⟨true, some (), none, some []⟩ ("r1".data) 0 true =
      .ok ([], { region_id := "r1".data, page_index := 0, method := .ocr
               , quality_score := 0, text_length := 0, ocr_confidence := 85 }) ∧
    calculate_quality_score ("  ".data) = 0 :=
  ⟨(c8_total_failure_still_recorded _ ("r1".data) 0 [] rfl (by decide)
      (Or.inr ⟨rfl, rfl⟩)).1,
   (c8_total_failure_still_recorded (⟨true, some (), none, some []⟩ : OcrEnv)
      ("r1".data) 0 [] rfl (by decide) (Or.inr ⟨rfl, rfl⟩)).2 ("  ".data) (by decide)⟩

/-- C9: an article with zero associated regions yields an `ExtractedText`
with empty text and an empty metadata list, and no error. -/
theorem c9_article_without_regions (doc : AnnotationDocM) (envF : RegionM → OcrEnv)
    (article_id : Str) (apply_cleanup : Bool)
    (h : get_regions_for_article doc article_id = []) :
    build_article_text_one doc envF article_id apply_cleanup =
      .ok { article_id := article_id, text := [], regions_metadata := [] } := by
  unfold build_article_text_one
  rw [h]

theorem c9_witness :
    build_article_text_one
      ⟨"1.0".data, "ed.pdf".data, "t0".data, "t0".data, [],
        [("A1".data, defaultArticle)], ⟨200, "eng".data, true⟩⟩
      (fun _ => ⟨true, none, none, none⟩) ("A1".data) true =
      .ok { article_id := "A1".data, text := [], regions_metadata := [] } :=
  c9_article_without_regions _ _ ("A1".data) true (by decide)

/-- C10: adding an article whose id already exists returns that id and
leaves the document entirely unchanged (no article replacement, no
`updated_at` refresh). -/
theorem c10_add_article_existing_id_noop (doc : AnnotationDocM) (aid now : Str)
    (h : containsKey doc.articles aid = true) :
    add_article doc (some aid) now = (doc, aid) := by
  simp [add_article, h]

/-- C6: reading-order reconstruction sorts fragments by 5-unit-quantized
vertical position, then horizontal position ascending (and the sorted
list is a permutation of the fragments); for the three fragments at
y-values 10, 10.2, 50 and x-values 80, 10, 5, the extracted text is the
newline-join in order [fragment at x = 10, fragment at x = 80,
fragment at x = 5]. -/
theorem c6_reading_order :
    (∀ bs : List RawBlock,
      List.Sorted blockLe (orderedBlocks bs) ∧
      (orderedBlocks bs).Perm (textBlocksOf bs)) ∧
    extract_text_in_bbox [exBlockA, exBlockB, exBlockC] = ("F10\nF80\nF5".data) := by
  constructor
  · intro bs
    exact ⟨List.sorted_insertionSort blockLe _, List.perm_insertionSort blockLe _⟩
  · have hrA : pyRound ((10 : ℚ) / 5) = 2 := by unfold pyRound; norm_num
    have hrB : pyRound ((51 / 5 : ℚ) / 5) = 2 := by unfold pyRound; norm_num
    have hrC : pyRound ((50 : ℚ) / 5) = 10 := by unfold pyRound; norm_num
    have kA : blockKey exTbA = (10, 0, 80) := by
      simp only [blockKey, exTbA, hrA]
      norm_num
    have kB : blockKey exTbB = (10, 0, 10) := by
      simp only [blockKey, exTbB, hrB]
      norm_num
    have kC : blockKey exTbC = (50, 0, 5) := by
      simp only [blockKey, exTbC, hrC]
      norm_num
    have hBC : blockLe exTbB exTbC := by
      unfold blockLe keyedLe
      rw [kB, kC]
      decide
    have hAB : ¬ blockLe exTbA exTbB := by
      unfold blockLe keyedLe
      rw [kA, kB]
      decide
    have hAC : blockLe exTbA exTbC := by
      unfold blockLe keyedLe
      rw [kA, kC]
      decide
    have e1 : textBlocksOf [exBlockA, exBlockB, exBlockC] = [exTbA, exTbB, exTbC] :=
      rfl
    have hsort : List.insertionSort blockLe [exTbA, exTbB, exTbC] =
        [exTbB, exTbA, exTbC] := by
      simp [List.insertionSort, List.orderedInsert, hBC, hAB, hAC]
    unfold extract_text_in_bbox orderedBlocks
    rw [e1, hsort]
    decide

theorem c6_witness :
    List.Sorted blockLe (orderedBlocks [exBlockA, exBlockB, exBlockC]) :=
  (c6_reading_order.1 [exBlockA, exBlockB, exBlockC]).1

/-- C7: the Article Text Assembler processes regions in increasing
reading-order rank with ties broken by page index then top-edge y (the
region list is sorted by that key and is a permutation of the article's
regions), and concatenates per-region texts in that order with a
blank-line separator: with ranks [2, 1] on one page, rank 1's text
`"alpha"` precedes rank 2's text `"bravo"`. -/
theorem c7_assembly_order :
    (∀ (doc : AnnotationDocM) (aid : Str),
      List.Sorted regionLe (get_regions_for_article doc aid) ∧
      (get_regions_for_article doc aid).Perm (collectRegions doc aid)) ∧
    (build_article_text_one exDoc exEnvF ("A1".data) false).map
        (fun e => (e.text, e.regions_metadata.map (fun m => (m.region_id, m.method))))
      = .ok (("alpha\n\nbravo".data),
             [("r2".data, Method.ocr), ("r1".data, Method.ocr)]) := by
  constructor
  · intro doc aid
    exact ⟨List.sorted_insertionSort regionLe _, List.perm_insertionSort regionLe _⟩
  · rfl

theorem c7_witness :
    List.Sorted regionLe (get_regions_for_article exDoc ("A1".data)) :=
  (c7_assembly_order.1 exDoc ("A1".data)).1

theorem c10_witness :
    add_article
      ⟨"1.0".data, "ed.pdf".data, "t0".data, "t0".data, [],
        [("A1".data, defaultArticle)], ⟨200, "eng".data, true⟩⟩
      (some ("A1".data)) ("t9".data) =
      (⟨"1.0".data, "ed.pdf".data, "t0".data, "t0".data, [],
        [("A1".data, defaultArticle)], ⟨200, "eng".data, true⟩⟩, "A1".data) :=
  c10_add_article_existing_id_noop _ ("A1".data) ("t9".data) (by decide)

end EdReporter
